import Mathlib

/-!
Shallow embedding of the mcp-woocommerce repository.

The repository contains three small Node/Express servers:
* `src/server.js` — a streaming reverse proxy ("Bridge"): POST /sse forwards the
  JSON-RPC body to an upstream streaming endpoint and relays the response bytes.
* `src/unnamed/part_000` (first document) — a WooCommerce MCP server ("Woo0")
  with the `wc` upstream client, `withAuth` / `authHeaders` credential provider.
* `src/unnamed/part_001` — a WooCommerce MCP server ("Woo1") with `wcHeaders`,
  `wcGet`, `wcPut`, the `wc_update_product` tool handler, and a startup
  environment check.

JavaScript strings are modelled as Lean `String` (a list of characters);
JavaScript numbers appearing here are integers and are modelled as `Nat`/`Int`;
possibly-`undefined` values are modelled as `Option`; promise rejection /
thrown exceptions are modelled with `Except`.
-/

/-- JSON values, used to model parsed JSON-RPC bodies and `res.json()` results. -/
inductive JVal where
  | null
  | bool (b : Bool)
  | num (n : Int)
  | str (s : String)
  | arr (xs : List JVal)
  | obj (kvs : List (String × JVal))

/-- Template-literal coercion of a possibly-undefined environment variable:
in JavaScript, interpolating `undefined` into a template string yields the
text "undefined". -/
def jsStr (o : Option String) : String :=
  match o with
  | none => "undefined"
  | some s => s

/-- UTF-8 encoding of a single character as a list of byte values,
modelled from the Unicode UTF-8 encoding scheme (used by both the Node
`Buffer.from(string)` and ECMAScript `encodeURIComponent`). -/
def utf8Bytes (c : Char) : List Nat :=
  let n := c.toNat
  if n < 128 then [n]
  else if n < 2048 then [192 + n / 64, 128 + n % 64]
  else if n < 65536 then [224 + n / 4096, 128 + (n / 64) % 64, 128 + n % 64]
  else [240 + n / 262144, 128 + (n / 4096) % 64, 128 + (n / 64) % 64, 128 + n % 64]

/-- UTF-8 bytes of a string, modelling the Node `Buffer.from(s)` (default utf8). -/
def strBytes (s : String) : List Nat :=
  s.data.flatMap utf8Bytes

/-- The base64 alphabet, position `n` of the standard alphabet. -/
def base64Char (n : Nat) : Char :=
  if n < 26 then Char.ofNat (65 + n)
  else if n < 52 then Char.ofNat (97 + (n - 26))
  else if n < 62 then Char.ofNat (48 + (n - 52))
  else if n = 62 then '+'
  else '/'

/-- Standard base64 encoding with padding, modelling the Node Buffer method
toString with the base64 encoding. -/
def base64Encode : List Nat → String
  | [] => ""
  | [a] =>
    String.mk [base64Char (a / 4), base64Char ((a % 4) * 16), '=', '=']
  | [a, b] =>
    String.mk [base64Char (a / 4), base64Char ((a % 4) * 16 + b / 16),
               base64Char ((b % 16) * 4), '=']
  | a :: b :: c :: rest =>
    String.mk [base64Char (a / 4), base64Char ((a % 4) * 16 + b / 16),
               base64Char ((b % 16) * 4 + c / 64), base64Char (c % 64)]
      ++ base64Encode rest

/-- Upper-case hexadecimal digit for a value below 16. -/
def hexDigit (n : Nat) : Char :=
  if n < 10 then Char.ofNat (48 + n) else Char.ofNat (55 + n)

/-- Characters left unescaped by ECMAScript `encodeURIComponent`:
ASCII letters, digits, and the nine marks minus, underscore, dot, bang, tilde, star, apostrophe and the two parentheses. -/
def isUnescapedURIChar (c : Char) : Bool :=
  ('A' ≤ c && c ≤ 'Z') || ('a' ≤ c && c ≤ 'z') || ('0' ≤ c && c ≤ '9') ||
  c == '-' || c == '_' || c == '.' || c == '!' || c == '~' || c == '*' ||
  c == Char.ofNat 39 || c == '(' || c == ')'

/-- Percent-escape of one byte value: a percent sign and two upper-case hex digits. -/
def percentByte (n : Nat) : List Char :=
  ['%', hexDigit (n / 16), hexDigit (n % 16)]

/-- Modelled from ECMAScript `encodeURIComponent`: unescaped characters pass
through, every other character is replaced by the percent-escapes of its
UTF-8 bytes. -/
def encodeURIComponent (s : String) : String :=
  String.mk (s.data.flatMap fun c =>
    if isUnescapedURIChar c then [c] else (utf8Bytes c).flatMap percentByte)

/-- Whether `pat` is an initial segment of `s` (character lists). -/
def listStartsWith : List Char → List Char → Bool
  | [], _ => true
  | _ :: _, [] => false
  | a :: as, b :: bs => a == b && listStartsWith as bs

/-- Whether `pat` occurs as a contiguous segment of `s` (character lists). -/
def listIncludes (s pat : List Char) : Bool :=
  (List.range (s.length + 1)).any fun i => listStartsWith pat (s.drop i)

/-- Modelled from ECMAScript `String.prototype.includes`: substring test. -/
def strIncludes (s pat : String) : Bool :=
  listIncludes s.data pat.data

/-- Modelled from ECMAScript `String.prototype.toLowerCase`, character-wise. -/
def jsToLower (s : String) : String :=
  String.mk (s.data.map Char.toLower)

/-- A settled WHATWG `fetch` response as observed by the clients in this
repository: status, status text, a content-type header (absent when the
response carries none), the outcome of `res.text()` (rejection modelled as
`Except.error`), and the outcome of `res.json()`. -/
structure FetchRes where
  status : Nat
  statusText : String
  contentType : Option String
  textResult : Except String String
  jsonResult : Except String JVal

/-- Modelled from the WHATWG fetch specification: `Response.ok` holds exactly
for statuses in the range 200–299. -/
def FetchRes.ok (r : FetchRes) : Bool :=
  200 ≤ r.status && r.status < 300

/-- Outcome of running a module top level: either the process exits with a
message and an exit code, or it proceeds to listen for requests. -/
inductive StartOutcome where
  | exit (msg : String) (code : Nat)
  | run
deriving DecidableEq

namespace Woo0

/-- Environment variables read by part_000 (first document): `WC_URL`,
`WC_KEY`, `WC_SECRET`, `WC_AUTH_IN_QUERY`; each possibly undefined. -/
structure Env where
  wcUrl : Option String
  key : Option String
  secret : Option String
  authInQuery : Option String

/-- Source: part_000 line 10, `const base = ${WC_URL}/wp-json/wc/v3`. -/
def base (env : Env) : String :=
  jsStr env.wcUrl ++ "/wp-json/wc/v3"

/-- Source: part_000 line 11, the env var WC_AUTH_IN_QUERY, defaulted to empty, lower-cased and compared with the text true. -/
def useQueryAuth (env : Env) : Bool :=
  jsToLower (env.authInQuery.getD "") == "true"

/-- Headers produced by `authHeaders`: a content type and an optional
authorization value. -/
structure WooHeaders where
  contentType : String
  authorization : Option String

/-- Source: part_000 lines 12–20 (`authHeaders`): a JSON content type always;
a basic-auth authorization header only when not in query-auth mode. -/
def authHeaders (env : Env) : WooHeaders :=
  if useQueryAuth env then
    { contentType := "application/json", authorization := none }
  else
    { contentType := "application/json",
      authorization :=
        some ("Basic " ++ base64Encode (strBytes (jsStr env.key ++ ":" ++ jsStr env.secret))) }

/-- Source: part_000 lines 21–27 (`withAuth`): target URL construction; in
query-auth mode appends url-encoded consumer key and secret, with a separator
chosen by whether the path already contains a question mark. -/
def withAuth (env : Env) (path : String) : String :=
  if !useQueryAuth env then base env ++ path
  else
    let sep := if strIncludes path "?" then "&" else "?"
    base env ++ path ++
      (sep ++ "consumer_key=" ++ encodeURIComponent (jsStr env.key)) ++
      ("&consumer_secret=" ++ encodeURIComponent (jsStr env.secret))

/-- Source: part_000 lines 34–36: the error message thrown by `wc` on a
non-ok response; the body text defaults to empty when `res.text()` rejects. -/
def wcErrMsg (r : FetchRes) : String :=
  let txt := match r.textResult with | .ok t => t | .error _ => ""
  Nat.repr r.status ++ " " ++ r.statusText ++ (if txt == "" then "" else " - " ++ txt)

/-- Source: part_000 lines 28–40 (`wc`): on a non-ok response throws the
formatted error; on success returns the parsed JSON when the content type
contains "application/json", else null (modelled as `none`). The fetch target
is `withAuth env path` with headers `authHeaders env`; this definition maps
the settled response to the outcome of the call. -/
def wc (r : FetchRes) : Except String (Option JVal) :=
  if !r.ok then .error (wcErrMsg r)
  else
    let ct := r.contentType.getD ""
    if strIncludes ct "application/json" then r.jsonResult.map some
    else .ok none

/-- Source: part_000 top level: the module defines its constants and tools and
starts listening with no environment validation of any kind. -/
def startup (_env : Env) : StartOutcome :=
  .run

end Woo0

namespace Woo1

/-- JavaScript truthiness of a possibly-undefined environment string:
`undefined` and the empty string are falsy. -/
def jsTruthy (o : Option String) : Bool :=
  match o with
  | none => false
  | some s => !(s == "")

/-- Source: part_001 lines 7–14: the module reads `BASE_URL`,
`WOO_CONSUMER_KEY`, `WOO_CONSUMER_SECRET` and calls `process.exit(1)` with an
error message when any of them is falsy; otherwise it proceeds. -/
def startup (baseUrl ck cs : Option String) : StartOutcome :=
  if !jsTruthy baseUrl || !jsTruthy ck || !jsTruthy cs then
    .exit "Missing env: BASE_URL, WOO_CONSUMER_KEY, WOO_CONSUMER_SECRET" 1
  else .run

/-- Headers produced by `wcHeaders` in part_001. -/
structure WcHeaders where
  authorization : String
  contentType : String
  accept : String

/-- Source: part_001 lines 19–26 (`wcHeaders`): basic-auth from the consumer
key and secret, plus JSON content-type and accept headers. -/
def wcHeaders (ck cs : String) : WcHeaders :=
  { authorization := "Basic " ++ base64Encode (strBytes (ck ++ ":" ++ cs)),
    contentType := "application/json",
    accept := "application/json" }

/-- Source: part_001 lines 28–36 (`wcGet`): on a non-ok response throws
`Woo GET <url> -> <status> <body text>` (a rejection of `res.text()` itself
propagates); on success always parses the body as JSON. -/
def wcGet (url : String) (r : FetchRes) : Except String JVal :=
  if !r.ok then
    match r.textResult with
    | .ok t => .error ("Woo GET " ++ url ++ " -> " ++ Nat.repr r.status ++ " " ++ t)
    | .error e => .error e
  else r.jsonResult

/-- Fields of the product object returned by the upstream PUT in
`wc_update_product`; every field may be absent, and only `description` is
consumed as a string by the handler. -/
structure WcProduct where
  id : Option JVal := none
  name : Option JVal := none
  permalink : Option JVal := none
  short_description : Option JVal := none
  description : Option String := none
  date_modified : Option JVal := none

/-- The object the `wc_update_product` handler serializes back to the caller. -/
structure UpdateOut where
  id : Option JVal
  name : Option JVal
  permalink : Option JVal
  short_description : Option JVal
  description : String
  date_modified : Option JVal

/-- JavaScript `a + b` where `a` may be undefined and `b` is a string:
string concatenation after coercing `undefined` to the text "undefined". -/
def jsPlusStr (a : Option String) (b : String) : String :=
  (match a with | none => "undefined" | some s => s) ++ b

/-- JavaScript `a?.length > n` where `a` may be undefined: comparison with
`undefined` is false; otherwise the string length is compared. -/
def jsOptLenGt (a : Option String) (n : Nat) : Bool :=
  match a with
  | none => false
  | some s => n < s.length

/-- Source: part_001 lines 129–141 (`wc_update_product` handler): the result
object built from the upstream update response `updated`; its description is
`updated.description?.slice(0, 200) + (updated.description?.length > 200 ? ellipsis : empty)`. -/
def wc_update_product (updated : WcProduct) : UpdateOut :=
  { id := updated.id,
    name := updated.name,
    permalink := updated.permalink,
    short_description := updated.short_description,
    description :=
      jsPlusStr (updated.description.map fun s => s.take 200)
        (if jsOptLenGt updated.description 200 then "…" else ""),
    date_modified := updated.date_modified }

end Woo1

namespace Bridge

/-- How the upstream response body stream terminates: a normal close or an
abort mid-stream. -/
inductive Term where
  | closed
  | aborted

/-- The upstream `fetch` response observed by the POST /sse handler in
`src/server.js`: status, the three mirrored headers, and the body stream —
absent (`upstream.body` null) or a sequence of chunks with its termination. -/
structure UpstreamRes where
  status : Nat
  contentType : Option String
  mcpProtocolVersion : Option String
  xTransportType : Option String
  body : Option (List String × Term)

/-- The observable state of the Express response object `res` used by the
handler: status, the mirrored headers, the chunks written in order, whether
`res.end()` has been called, and a JSON body when `res.json(...)` was used. -/
structure ClientState where
  status : Nat := 200
  contentTypeHeader : Option String := none
  protoHeader : Option String := none
  transportHeader : Option String := none
  written : List String := []
  ended : Bool := false
  jsonBody : Option JVal := none

/-- Effect of `res.write(chunk)`: the chunk is appended to the written output. -/
def resWrite (st : ClientState) (chunk : String) : ClientState :=
  { st with written := st.written ++ [chunk] }

/-- Effect of `res.end()`. -/
def resEnd (st : ClientState) : ClientState :=
  { st with ended := true }

/-- Source: server.js lines 61–74, the `pipeTo(new WritableStream({...}))`
call: each chunk is written via the sink write callback, a normal close runs the
sink close callback (which ends the response) and the promise resolves, an abort
runs the sink abort callback (which also ends the response) and the promise
rejects with the abort reason. -/
def pipeToSink (chunks : List String) (t : Term) (st : ClientState) :
    ClientState × Option String :=
  let st1 := chunks.foldl resWrite st
  match t with
  | .closed => (resEnd st1, none)
  | .aborted => (resEnd st1, some "aborted")

/-- Association-list lookup used to read a property of a JSON object. -/
def lookupField : List (String × JVal) → String → Option JVal
  | [], _ => none
  | (k, v) :: rest, key => if k == key then some v else lookupField rest key

/-- JavaScript property access `v.id` on a parsed JSON value: a property of an
object, `undefined` (modelled `none`) on anything else. -/
def jsGetField (v : JVal) (k : String) : Option JVal :=
  match v with
  | .obj kvs => lookupField kvs k
  | _ => none

/-- Source: server.js line 78, `req.body?.id ?? null`: the id property of the
parsed request body, or JSON null when the body or the property is absent. -/
def reqIdOrNull (b : Option JVal) : JVal :=
  match b with
  | none => .null
  | some v => (jsGetField v "id").getD .null

/-- Source: server.js lines 77–81: the JSON-RPC-shaped error body sent on a
proxy failure. -/
def proxyErrorBody (b : Option JVal) : JVal :=
  .obj [("jsonrpc", .str "2.0"),
        ("id", reqIdOrNull b),
        ("error", .obj [("code", .num (-32603)),
                        ("message", .str "Upstream proxy error")])]

/-- Source: server.js lines 30–83, the POST /sse handler after the upstream
fetch settles: on a fetch rejection the catch branch answers 502 with the
JSON-RPC error body; on a response it mirrors status and the header
allow-list, ends immediately when there is no body, and otherwise pipes the
body to the client, with the trailing `.catch` ending the response when the
pipe promise rejects. The handler is a total function into `ClientState`:
no exception escapes it. -/
def ssePost (fetchResult : Except String UpstreamRes) (reqBody : Option JVal) :
    ClientState :=
  match fetchResult with
  | .error _ =>
    { status := 502, ended := true, jsonBody := some (proxyErrorBody reqBody) }
  | .ok up =>
    let ct := up.contentType.getD "application/json"
    let proto := up.mcpProtocolVersion.getD ""
    let transport := up.xTransportType.getD ""
    let st0 : ClientState :=
      { status := up.status,
        contentTypeHeader := some ct,
        protoHeader := if proto == "" then none else some proto,
        transportHeader := if transport == "" then none else some transport }
    match up.body with
    | none => resEnd st0
    | some (chunks, t) =>
      match pipeToSink chunks t st0 with
      | (st1, none) => st1
      | (st1, some _) => resEnd st1

/-- HTTP methods distinguished by the routing in server.js. -/
inductive Method where
  | GET
  | POST
  | OPTIONS
  | PUT
  | OTHER
deriving DecidableEq

/-- Whether a path is mounted under `/.well-known` in the Express sense:
the mount point itself or any path below it. -/
def underWellKnown (p : String) : Bool :=
  p == "/.well-known" || listStartsWith "/.well-known/".data p.data

/-- Outcome of routing one inbound request: the response status and whether
the request reached the /sse relay (the only route that calls upstream). -/
structure RouteResult where
  status : Nat
  upstreamCalled : Bool

/-- Source: server.js middleware chain in registration order. `app.use(cors())`
runs first and, per the documented defaults of the cors package
(`preflightContinue: false`, `optionsSuccessStatus: 204`), answers every
OPTIONS request itself with 204; then GET /health, the `/.well-known` mount
(404, any method), the explicit OPTIONS middleware (line 26, unreachable
behind cors), POST /sse (the relay, whose status `sseStatus` depends on the
upstream), GET /, and the Express default 404. -/
def serverRoute (sseStatus : Nat) (m : Method) (p : String) : RouteResult :=
  if m = Method.OPTIONS then ⟨204, false⟩
  else if m = Method.GET ∧ p = "/health" then ⟨200, false⟩
  else if underWellKnown p then ⟨404, false⟩
  else if m = Method.OPTIONS then ⟨204, false⟩
  else if m = Method.POST ∧ p = "/sse" then ⟨sseStatus, true⟩
  else if m = Method.GET ∧ p = "/" then ⟨200, false⟩
  else ⟨404, false⟩

end Bridge

/-! Concrete fixtures used by witness theorems. -/

/-- A 404 response with a readable body, for exercising the error path. -/
def rNotFound : FetchRes :=
  { status := 404, statusText := "Not Found", contentType := some "text/html",
    textResult := .ok "nope", jsonResult := .error "invalid json" }

/-- A 500 response whose body is unreadable, for the default-empty body case. -/
def rNoBody : FetchRes :=
  { status := 500, statusText := "Internal Server Error", contentType := none,
    textResult := .error "unreadable", jsonResult := .error "invalid json" }

/-- A successful JSON response. -/
def rJson : FetchRes :=
  { status := 200, statusText := "OK",
    contentType := some "application/json; charset=utf-8",
    textResult := .ok "{}", jsonResult := .ok (JVal.obj []) }

/-- A successful response whose content type does not indicate JSON. -/
def rHtml : FetchRes :=
  { status := 200, statusText := "OK", contentType := some "text/html",
    textResult := .ok "<p>hi</p>", jsonResult := .error "not json" }

/-- A part_000 environment configured for query authentication. -/
def envQuery : Woo0.Env :=
  { wcUrl := some "https://shop.example", key := some "k k",
    secret := some "s&s", authInQuery := some "TRUE" }

/-- A 201-character string, one past the truncation threshold. -/
def sLong : String :=
  String.mk (List.replicate 201 'a')

/-! Helper lemmas. -/

/-- Any list is an initial segment of itself followed by anything. -/
theorem listStartsWith_self_append (p b : List Char) :
    listStartsWith p (p ++ b) = true := by
  induction p with
  | nil => rfl
  | cons a as ih => simp [listStartsWith, ih]

/-- A list occurs in any list that has it as a middle segment. -/
theorem listIncludes_middle (a p b : List Char) :
    listIncludes (a ++ (p ++ b)) p = true := by
  unfold listIncludes
  apply List.any_eq_true.mpr
  refine ⟨a.length, ?_, ?_⟩
  · apply List.mem_range.mpr
    simp [List.length_append]
    omega
  · rw [ List.drop_left]
    exact listStartsWith_self_append p b

/-- A string occurs in any string that has it as a middle segment. -/
theorem strIncludes_middle (a p b : String) :
    strIncludes (a ++ p ++ b) p = true := by
  unfold strIncludes
  rw [String.data_append, String.data_append, List.append_assoc]
  exact listIncludes_middle a.data p.data b.data

/-- A string occurs in any string that starts with it. -/
theorem strIncludes_left (p b : String) :
    strIncludes (p ++ b) p = true :=
  strIncludes_middle "" p b

/-- Folding `resWrite` over a chunk list appends the chunks to the output. -/
theorem foldl_resWrite_written (chunks : List String) (st : Bridge.ClientState) :
    (chunks.foldl Bridge.resWrite st).written = st.written ++ chunks := by
  induction chunks generalizing st with
  | nil => simp
  | cons c cs ih => simp [List.foldl, ih, Bridge.resWrite]

/-- Folding `resWrite` leaves the ended flag untouched. -/
theorem foldl_resWrite_ended (chunks : List String) (st : Bridge.ClientState) :
    (chunks.foldl Bridge.resWrite st).ended = st.ended := by
  induction chunks generalizing st with
  | nil => rfl
  | cons c cs ih => simp [List.foldl, ih, Bridge.resWrite]

/-- Folding `resWrite` leaves the JSON body untouched. -/
theorem foldl_resWrite_jsonBody (chunks : List String) (st : Bridge.ClientState) :
    (chunks.foldl Bridge.resWrite st).jsonBody = st.jsonBody := by
  induction chunks generalizing st with
  | nil => rfl
  | cons c cs ih => simp [List.foldl, ih, Bridge.resWrite]

/-! Claim theorems. -/

/-- C1: for every sequence of body chunks yielded by the upstream stream, the
POST /sse handler writes exactly those chunks to the client in order with no
transformation and ends the response, both on a normal close and on an abort
mid-stream (the abort rejection is swallowed, never escaping the handler,
which is a total function); when the upstream has no body the response is
ended immediately with nothing written. -/
theorem sse_relay_exact (status : Nat) (ct pv tt : Option String)
    (chunks : List String) (t : Bridge.Term) (b : Option JVal) :
    ((Bridge.ssePost (Except.ok ⟨status, ct, pv, tt, some (chunks, t)⟩) b).written = chunks
     ∧ (Bridge.ssePost (Except.ok ⟨status, ct, pv, tt, some (chunks, t)⟩) b).ended = true
     ∧ (Bridge.ssePost (Except.ok ⟨status, ct, pv, tt, some (chunks, t)⟩) b).jsonBody = none)
    ∧ ((Bridge.ssePost (Except.ok ⟨status, ct, pv, tt, none⟩) b).written = []
       ∧ (Bridge.ssePost (Except.ok ⟨status, ct, pv, tt, none⟩) b).ended = true) := by
  cases t <;>
    simp [Bridge.ssePost, Bridge.pipeToSink, Bridge.resEnd,
          foldl_resWrite_written, foldl_resWrite_ended, foldl_resWrite_jsonBody]

/-- C2: when the upstream fetch fails before any bytes are sent, the POST
/sse handler answers 502 with nothing written to the stream and the exact
JSON-RPC body: jsonrpc 2.0, id echoing the inbound body id (null when the
body or the id is absent), error code -32603 with message
"Upstream proxy error". -/
theorem sse_upstream_failure_502 (e : String) (b : Option JVal) :
    (Bridge.ssePost (Except.error e) b).status = 502
    ∧ (Bridge.ssePost (Except.error e) b).written = []
    ∧ (Bridge.ssePost (Except.error e) b).ended = true
    ∧ (Bridge.ssePost (Except.error e) b).jsonBody =
        some (JVal.obj [("jsonrpc", JVal.str "2.0"),
                        ("id", Bridge.reqIdOrNull b),
                        ("error", JVal.obj [("code", JVal.num (-32603)),
                                            ("message", JVal.str "Upstream proxy error")])])
    ∧ Bridge.reqIdOrNull none = JVal.null
    ∧ (∀ n : Int, Bridge.reqIdOrNull (some (JVal.obj [("id", JVal.num n)])) = JVal.num n) := by
  refine ⟨rfl, rfl, rfl, rfl, rfl, fun n => ?_⟩
  simp [Bridge.reqIdOrNull, Bridge.jsGetField, Bridge.lookupField]

/-- C3: every upstream response with a non-success status (in particular every
status at or above 400 is non-success) makes the upstream client `wc` fail,
never returning a value; the message is the status followed by the status
text, followed by " - " and the captured body text exactly when that text is
nonempty (defaulting to empty when unreadable), and it contains the numeric
status; the variant `wcGet` likewise never returns a value and its error
message contains the numeric status. -/
theorem wc_nonsuccess_error :
    (∀ r : FetchRes, 400 ≤ r.status → r.ok = false)
    ∧ (∀ r : FetchRes, r.ok = false →
        (Woo0.wc r = Except.error (Woo0.wcErrMsg r)
         ∧ (∀ v, Woo0.wc r ≠ Except.ok v)
         ∧ Woo0.wcErrMsg r =
             (if (match r.textResult with | .ok t => t | .error _ => "") = "" then
                Nat.repr r.status ++ " " ++ r.statusText
              else
                Nat.repr r.status ++ " " ++ r.statusText ++ " - "
                  ++ (match r.textResult with | .ok t => t | .error _ => ""))
         ∧ strIncludes (Woo0.wcErrMsg r) (Nat.repr r.status) = true)
        ∧ (∀ url v, Woo1.wcGet url r ≠ Except.ok v)
        ∧ (∀ url t, r.textResult = Except.ok t →
            Woo1.wcGet url r =
              Except.error ("Woo GET " ++ url ++ " -> " ++ Nat.repr r.status ++ " " ++ t)
            ∧ strIncludes ("Woo GET " ++ url ++ " -> " ++ Nat.repr r.status ++ " " ++ t)
                (Nat.repr r.status) = true)) := by
  constructor
  · intro r h
    simp [FetchRes.ok]
    omega
  · intro r h
    refine ⟨⟨?_, ?_, ?_, ?_⟩, ?_, ?_⟩
    · simp [Woo0.wc, h]
    · intro v
      simp [Woo0.wc, h]
    · unfold Woo0.wcErrMsg
      rcases r.textResult with e | t
      · simp
      · by_cases ht : t = "" <;> simp [ht, String.append_assoc]
    · unfold Woo0.wcErrMsg
      rcases r.textResult with e | t
      · simpa [String.append_assoc] using
          strIncludes_left (Nat.repr r.status) (" " ++ r.statusText)
      · by_cases ht : t = ""
        · simpa [ht, String.append_assoc] using
            strIncludes_left (Nat.repr r.status) (" " ++ r.statusText)
        · simpa [ht, String.append_assoc] using
            strIncludes_left (Nat.repr r.status)
              (" " ++ (r.statusText ++ (" - " ++ t)))
    · intro url v
      rcases htx : r.textResult with e | t <;> simp [Woo1.wcGet, h, htx]
    · intro url t htx
      constructor
      · simp [Woo1.wcGet, h, htx]
      · have := strIncludes_middle ("Woo GET " ++ url ++ " -> ")
          (Nat.repr r.status) (" " ++ t)
        simpa [String.append_assoc] using this

/-- C3 witness: the theorem applied to a concrete 404 response with body
"nope" and to a concrete 500 response with an unreadable body. -/
theorem wc_nonsuccess_error_witness :
    (Woo0.wc rNotFound = Except.error (Woo0.wcErrMsg rNotFound)
     ∧ Woo0.wcErrMsg rNotFound = "404 Not Found - nope"
     ∧ strIncludes (Woo0.wcErrMsg rNotFound) "404" = true)
    ∧ Woo0.wcErrMsg rNoBody = "500 Internal Server Error"
    ∧ Woo1.wcGet "/wp-json/wc/v3/products" rNotFound =
        Except.error "Woo GET /wp-json/wc/v3/products -> 404 nope" := by
  have h := wc_nonsuccess_error.2 rNotFound (by decide)
  have h5 := wc_nonsuccess_error.2 rNoBody (by decide)
  refine ⟨⟨h.1.1, by decide, ?_⟩, by decide, ?_⟩
  · have hrep : Nat.repr rNotFound.status = "404" := by decide
    have hin := h.1.2.2.2
    rw [hrep] at hin
    exact hin
  · have hg := (h.2.2 "/wp-json/wc/v3/products" "nope" rfl).1
    have hs : ("Woo GET " ++ "/wp-json/wc/v3/products" ++ " -> "
        ++ Nat.repr rNotFound.status ++ " " ++ "nope") =
        "Woo GET /wp-json/wc/v3/products -> 404 nope" := by decide
    rw [hs] at hg
    exact hg

/-- C4: in query-auth mode, `withAuth` produces the base URL plus the path
with url-encoded consumer_key and consumer_secret appended, joined with a
question mark when the path has no query string and with an ampersand when it
already has one, and `authHeaders` adds no authorization header. -/
theorem withAuth_query_mode (env : Woo0.Env) (path : String)
    (h : Woo0.useQueryAuth env = true) :
    (strIncludes path "?" = false →
      Woo0.withAuth env path =
        Woo0.base env ++ path ++
          ("?" ++ "consumer_key=" ++ encodeURIComponent (jsStr env.key)) ++
          ("&consumer_secret=" ++ encodeURIComponent (jsStr env.secret)))
    ∧ (strIncludes path "?" = true →
      Woo0.withAuth env path =
        Woo0.base env ++ path ++
          ("&" ++ "consumer_key=" ++ encodeURIComponent (jsStr env.key)) ++
          ("&consumer_secret=" ++ encodeURIComponent (jsStr env.secret)))
    ∧ (Woo0.authHeaders env).authorization = none := by
  refine ⟨fun hq => ?_, fun hq => ?_, ?_⟩ <;>
    simp [Woo0.withAuth, Woo0.authHeaders, h, *]

/-- C4 witness: the theorem applied to a concrete query-auth environment with
a key containing a space and a secret containing an ampersand, on a path
without and a path with an existing query string. -/
theorem withAuth_query_mode_witness :
    Woo0.withAuth envQuery "/products" =
      "https://shop.example/wp-json/wc/v3/products?consumer_key=k%20k&consumer_secret=s%26s"
    ∧ Woo0.withAuth envQuery "/products?page=2" =
      "https://shop.example/wp-json/wc/v3/products?page=2&consumer_key=k%20k&consumer_secret=s%26s"
    ∧ (Woo0.authHeaders envQuery).authorization = none := by
  have h1 := withAuth_query_mode envQuery "/products" (by decide)
  have h2 := withAuth_query_mode envQuery "/products?page=2" (by decide)
  refine ⟨?_, ?_, h1.2.2⟩
  · have := h1.1 (by decide)
    rw [this]
    decide
  · have := h2.2.1 (by decide)
    rw [this]
    decide

/-- C5: in header-auth mode the authorization header value is exactly
"Basic " followed by the base64 encoding of key:secret, together with a JSON
content type, in both the part_000 `authHeaders` and the part_001
`wcHeaders`; a concrete instance pins the encoder down. -/
theorem basic_auth_header :
    (∀ (k s : String) (u q : Option String),
        Woo0.useQueryAuth ⟨u, some k, some s, q⟩ = false →
          (Woo0.authHeaders ⟨u, some k, some s, q⟩).authorization =
            some ("Basic " ++ base64Encode (strBytes (k ++ ":" ++ s)))
          ∧ (Woo0.authHeaders ⟨u, some k, some s, q⟩).contentType = "application/json")
    ∧ (∀ ck cs : String,
        (Woo1.wcHeaders ck cs).authorization =
          "Basic " ++ base64Encode (strBytes (ck ++ ":" ++ cs))
        ∧ (Woo1.wcHeaders ck cs).contentType = "application/json")
    ∧ base64Encode (strBytes "ck:cs") = "Y2s6Y3M=" := by
  refine ⟨fun k s u q h => ?_, fun ck cs => ⟨rfl, rfl⟩, by decide⟩
  simp [Woo0.authHeaders, h, jsStr]

/-- C5 witness: the theorem applied to the concrete key "ck" and secret "cs"
in a header-auth environment. -/
theorem basic_auth_header_witness :
    (Woo0.authHeaders ⟨none, some "ck", some "cs", none⟩).authorization =
      some "Basic Y2s6Y3M=" := by
  have h := (basic_auth_header.1 "ck" "cs" none none (by decide)).1
  rw [h]
  decide

/-- C6: on every success-status response, `wc` returns the decoded JSON value
when the content type contains "application/json", and returns null (with no
exception) when it does not. -/
theorem wc_success_content_type (r : FetchRes) (h : r.ok = true) :
    (∀ v, strIncludes (r.contentType.getD "") "application/json" = true →
        r.jsonResult = Except.ok v → Woo0.wc r = Except.ok (some v))
    ∧ (strIncludes (r.contentType.getD "") "application/json" = false →
        Woo0.wc r = Except.ok none) := by
  constructor
  · intro v hct hj
    simp [Woo0.wc, h, hct, hj, Except.map]
  · intro hct
    simp [Woo0.wc, h, hct]

/-- C6 witness: the theorem applied to a concrete JSON response and a
concrete HTML response. -/
theorem wc_success_content_type_witness :
    Woo0.wc rJson = Except.ok (some (JVal.obj [])) ∧ Woo0.wc rHtml = Except.ok none := by
  constructor
  · exact (wc_success_content_type rJson (by decide)).1 (JVal.obj []) (by decide) rfl
  · exact (wc_success_content_type rHtml (by decide)).2 (by decide)

/-- C7: for every string description returned by the upstream update call,
the `wc_update_product` result carries exactly the first 200 characters
followed by a single ellipsis character when the description is longer than
200 characters, and the description unchanged when its length is at most
200. -/
theorem update_description_truncation (p : Woo1.WcProduct) (s : String)
    (hd : p.description = some s) :
    (200 < s.length → (Woo1.wc_update_product p).description = s.take 200 ++ "…")
    ∧ (s.length ≤ 200 → (Woo1.wc_update_product p).description = s) := by
  constructor
  · intro hl
    simp [Woo1.wc_update_product, hd, Woo1.jsPlusStr, Woo1.jsOptLenGt, hl]
  · intro hl
    have hnot : ¬ (200 < s.length) := by omega
    have htake : s.take 200 = s := by
      rw [ String.take_eq]
      have hdata : s.data.take 200 = s.data := List.take_of_length_le hl
      exact congrArg String.mk hdata
    simp [Woo1.wc_update_product, hd, Woo1.jsPlusStr, Woo1.jsOptLenGt, hnot, htake]

set_option maxRecDepth 8192 in
/-- C7 witness: the theorem applied to a concrete 201-character description
and to a concrete 2-character description. -/
theorem update_description_truncation_witness :
    (200 < sLong.length
     ∧ (Woo1.wc_update_product { description := some sLong }).description =
         sLong.take 200 ++ "…")
    ∧ (Woo1.wc_update_product { description := some "ab" }).description = "ab" := by
  refine ⟨⟨by decide, ?_⟩, ?_⟩
  · exact (update_description_truncation { description := some sLong } sLong rfl).1
      (by decide)
  · exact (update_description_truncation { description := some "ab" } "ab" rfl).2
      (by decide)

/-- C10: when the upstream update response has no description, the
`wc_update_product` result carries the literal string "undefined" as its
description, because optional chaining yields undefined and string
concatenation coerces it to that text. -/
theorem update_description_undefined (p : Woo1.WcProduct)
    (hd : p.description = none) :
    (Woo1.wc_update_product p).description = "undefined" := by
  simp [Woo1.wc_update_product, hd, Woo1.jsPlusStr, Woo1.jsOptLenGt]

/-- C10 witness: the theorem applied to a concrete response without a
description. -/
theorem update_description_undefined_witness :
    (Woo1.wc_update_product { description := none }).description = "undefined" :=
  update_description_undefined { description := none } rfl

/-- C8 counterexample: the claim asserts that every variant aborts at startup
when base URL, key or secret is absent, but the part_000 variant performs no
startup validation at all: with every required value absent it still proceeds
to run, and its base URL silently becomes "undefined/wp-json/wc/v3". -/
theorem startup_no_validation_cex :
    Woo0.startup ⟨none, none, none, none⟩ = StartOutcome.run
    ∧ Woo0.base ⟨none, none, none, none⟩ = "undefined/wp-json/wc/v3" :=
  ⟨rfl, by decide⟩

/-- C8 amended: in the part_001 variant, a startup configuration in which the
base URL, consumer key or consumer secret is absent makes the process exit
with code 1 and the descriptive message naming the required variables, before
serving any request. -/
theorem startup_missing_env_exits (b k s : Option String)
    (h : b = none ∨ k = none ∨ s = none) :
    Woo1.startup b k s =
      StartOutcome.exit "Missing env: BASE_URL, WOO_CONSUMER_KEY, WOO_CONSUMER_SECRET" 1 := by
  rcases h with h | h | h <;> subst h <;> simp [Woo1.startup, Woo1.jsTruthy]

/-- C8 witness: the amended theorem applied to the fully absent
configuration. -/
theorem startup_missing_env_exits_witness :
    Woo1.startup none none none =
      StartOutcome.exit "Missing env: BASE_URL, WOO_CONSUMER_KEY, WOO_CONSUMER_SECRET" 1 :=
  startup_missing_env_exits none none none (Or.inl rfl)

/-- C9 counterexample: the claim asserts that every request to a path under
/.well-known gets 404 and simultaneously that every OPTIONS request gets 204;
in server.js the cors middleware runs first and answers an OPTIONS request to
/.well-known/x with 204, not 404. -/
theorem options_wellknown_cex :
    Bridge.underWellKnown "/.well-known/x" = true
    ∧ (Bridge.serverRoute 200 Bridge.Method.OPTIONS "/.well-known/x").status = 204
    ∧ ¬ (Bridge.serverRoute 200 Bridge.Method.OPTIONS "/.well-known/x").status = 404 :=
  ⟨by decide, rfl, by decide⟩

/-- C9 amended: every non-OPTIONS request to a path under /.well-known is
answered 404, and every OPTIONS request to any path is answered 204; neither
reaches the upstream relay. -/
theorem probe_routing (sseStatus : Nat) (m : Bridge.Method) (p : String) :
    (m ≠ Bridge.Method.OPTIONS → Bridge.underWellKnown p = true →
      (Bridge.serverRoute sseStatus m p).status = 404
      ∧ (Bridge.serverRoute sseStatus m p).upstreamCalled = false)
    ∧ (m = Bridge.Method.OPTIONS →
      (Bridge.serverRoute sseStatus m p).status = 204
      ∧ (Bridge.serverRoute sseStatus m p).upstreamCalled = false) := by
  constructor
  · intro hm hw
    have hh : ¬ (m = Bridge.Method.GET ∧ p = "/health") := by
      rintro ⟨hg, hp⟩
      rw [hp] at hw
      exact absurd hw (by decide)
    simp [Bridge.serverRoute, hm, hh, hw]
  · intro hm
    subst hm
    simp [Bridge.serverRoute]

/-- C9 witness: the amended theorem applied to a GET under /.well-known and
an OPTIONS probe. -/
theorem probe_routing_witness :
    ((Bridge.serverRoute 200 Bridge.Method.GET "/.well-known/x").status = 404
     ∧ (Bridge.serverRoute 200 Bridge.Method.GET "/.well-known/x").upstreamCalled = false)
    ∧ ((Bridge.serverRoute 200 Bridge.Method.OPTIONS "/probe").status = 204
       ∧ (Bridge.serverRoute 200 Bridge.Method.OPTIONS "/probe").upstreamCalled = false) :=
  ⟨(probe_routing 200 Bridge.Method.GET "/.well-known/x").1 (by decide) (by decide),
   (probe_routing 200 Bridge.Method.OPTIONS "/probe").2 rfl⟩
